import Mathlib

/-!
# Verification of the glowing-circle indicator controller

Shallow embedding of the indicator controller (the color-parameterized
variant of the module, which exports `showCircle`, `hideCircle`,
`destroyCircle`).

Modelling choices:
* The DOM is a heap: `elems` maps element ids to div elements, `styleElems`
  maps ids to style elements.  `document.body` / `document.head` are lists
  of attached ids (`body`, `head`); this module only ever appends its own
  indicator / style elements there.
* The two module-level variables `circle : HTMLDivElement | null` and
  `styleSheet : HTMLStyleElement | null` are the `Option Nat` handles
  `circle` and `styleSheet` (element ids).
* JavaScript object identity of event-listener closures is modelled with a
  fresh-id allocator (`nextId`): each closure literal evaluated at runtime
  receives a fresh id, and `removeEventListener` removes a listener only if
  the closure id matches (exactly the identity semantics of the DOM API).
* `getBoundingClientRect()` is an environment `Env : TargetId → Rect` read
  at call time, so target bounds may change between events.
* CSS length strings such as `` `${rect.top + rect.height / 2}px` `` are
  modelled by their numeric value (a rational), since the px rendering is
  injective presentation.
-/

/-- A bounding client rect as returned by `getBoundingClientRect()`. -/
structure Rect where
  top : Rat
  left : Rat
  width : Rat
  height : Rat
deriving DecidableEq

/-- External target elements are identified by an id; the controller never
mutates them. -/
abbrev TargetId := Nat

/-- The geometry environment: the current bounding rect of every target. -/
abbrev Env := TargetId → Rect

/-- A div element: the style properties this module writes, its innerHTML
and its children (by id).  Freshly created elements have all properties
unset. -/
structure DivElem where
  styleWidth : String := ""
  styleHeight : String := ""
  background : String := ""
  borderRadius : String := ""
  position : String := ""
  transform : String := ""
  display : String := ""
  alignItems : String := ""
  justifyContent : String := ""
  boxShadow : String := ""
  animation : String := ""
  pointerEvents : String := ""
  zIndex : String := ""
  top : Option Rat := none
  left : Option Rat := none
  innerHTML : String := ""
  fontSize : String := ""
  color : String := ""
  children : List Nat := []
deriving DecidableEq

/-- A style element (`document.createElement('style')`). -/
structure StyleElem where
  typ : String := ""
  innerHTML : String := ""
deriving DecidableEq

/-- The two window events the module listens to. -/
inductive EventKind
  | resize
  | scroll
deriving DecidableEq

/-- A registered window event listener: the event name, the identity of the
closure that was registered, and the target element the closure captured
(its body is `() => updateCirclePosition(targetElement)`). -/
structure Listener where
  event : EventKind
  closureId : Nat
  target : TargetId
deriving DecidableEq

/-- The full program state: module-level handles, the element heaps, the
attached children of `document.body` and `document.head`, the window's
listener list, and the allocator for object identities. -/
structure St where
  circle : Option Nat := none
  styleSheet : Option Nat := none
  elems : List (Nat × DivElem) := []
  styleElems : List (Nat × StyleElem) := []
  body : List Nat := []
  head : List Nat := []
  listeners : List Listener := []
  nextId : Nat := 0
deriving DecidableEq

/-- The state at module load: both handles null, empty document. -/
def initSt : St := {}

/-- Allocate a fresh div element. -/
def St.allocElem (s : St) (e : DivElem) : Nat × St :=
  (s.nextId, { s with elems := s.elems ++ [(s.nextId, e)], nextId := s.nextId + 1 })

/-- Allocate a fresh style element. -/
def St.allocStyle (s : St) (e : StyleElem) : Nat × St :=
  (s.nextId, { s with styleElems := s.styleElems ++ [(s.nextId, e)], nextId := s.nextId + 1 })

/-- Evaluate a closure literal: a fresh object identity. -/
def St.freshClosure (s : St) : Nat × St :=
  (s.nextId, { s with nextId := s.nextId + 1 })

/-- Dereference a div element id. -/
def St.elem (s : St) (i : Nat) : Option DivElem :=
  (s.elems.find? (fun p => p.1 == i)).map (fun p => p.2)

/-- Mutate the div element with id `i` in place. -/
def St.setElem (s : St) (i : Nat) (f : DivElem → DivElem) : St :=
  { s with elems := s.elems.map (fun p => if p.1 == i then (p.1, f p.2) else p) }

/-- The gradient conditional, written identically in `createCircleElement`
and in the existing-instance branch of `showCircle`:
`color === "PURPLE" ? ... : color === "GRAY" ? ... : ...` (default BLUE). -/
def gradientFor (color : String) : String :=
  if color = "PURPLE" then "radial-gradient(circle, #9c27b0, #6a0080)"
  else if color = "GRAY" then "radial-gradient(circle, #c0c0c0, #808080)"
  else "radial-gradient(circle, #5f9eff, #003f9f)"

/-- The boxShadow conditional of `createCircleElement` (default BLUE). -/
def boxShadowFor (color : String) : String :=
  if color = "PURPLE" then
    "0 0 15px 5px rgba(156, 39, 176, 0.6), 0 0 30px 15px rgba(106, 0, 128, 0.3)"
  else if color = "GRAY" then
    "0 0 15px 5px rgba(192,192,192,0.5), 0 0 30px 15px rgba(128,128,128,0.3)"
  else
    "0 0 15px 5px rgba(0, 63, 159, 0.5), 0 0 30px 15px rgba(0, 63, 159, 0.3)"

/-- The style property writes of `createCircleElement`, as the element value
they produce on a fresh div. -/
def circleElemFor (color : String) : DivElem :=
  { styleWidth := "60px"
    styleHeight := "60px"
    background := gradientFor color
    borderRadius := "50%"
    position := "absolute"
    transform := "translate(-50%, -50%)"
    display := "flex"
    alignItems := "center"
    justifyContent := "center"
    boxShadow := boxShadowFor color
    animation := "glow-right 2s infinite"
    pointerEvents := "none"
    zIndex := "9999" }

/-- `createCircleElement(color)`: create a div and style it. -/
def createCircleElement (color : String) (s : St) : Nat × St :=
  s.allocElem (circleElemFor color)

/-- The element produced by `createIconElement`. -/
def iconElemVal : DivElem :=
  { innerHTML := "✦", fontSize := "24px", color := "white" }

/-- `createIconElement()`: the centered glyph. -/
def createIconElement (s : St) : Nat × St :=
  s.allocElem iconElemVal

/-- The keyframes text assigned to `styleSheet.innerHTML` (template literal,
with its original indentation). -/
def glowKeyframes : String :=
  "\n            @keyframes glow-right \x7b\n                0% \x7b\n                    transform: translate(-50%, -50%) scale(0.9);\n                    opacity: 0.9;\n                \x7d\n                50% \x7b\n                    transform: translate(-50%, -50%) scale(1.1);\n                    opacity: 0.7;\n                \x7d\n                100% \x7b\n                    transform: translate(-50%, -50%) scale(0.9);\n                    opacity: 0.9;\n                \x7d\n            \x7d\n        "

/-- The style element built by `addGlowAnimationStyles`. -/
def glowStyleElem : StyleElem :=
  { typ := "text/css", innerHTML := glowKeyframes }

/-- `addGlowAnimationStyles()`: if `styleSheet` is null, create the style
element, fill it and append it to `document.head`; otherwise do nothing. -/
def addGlowAnimationStyles (s : St) : St :=
  match s.styleSheet with
  | some _ => s
  | none =>
      let r := s.allocStyle glowStyleElem
      { r.2 with styleSheet := some r.1, head := r.2.head ++ [r.1] }

/-- `updateCirclePosition(targetElement)`: if `circle` is null return;
otherwise read the target's current rect and set `circle.style.top` to
`rect.top + rect.height / 2` (px) and `circle.style.left` to
`rect.left + rect.width / 2` (px). -/
def updateCirclePosition (env : Env) (targetElement : TargetId) (s : St) : St :=
  match s.circle with
  | none => s
  | some i =>
      let rect := env targetElement
      let s := s.setElem i (fun e => { e with top := some (rect.top + rect.height / 2) })
      s.setElem i (fun e => { e with left := some (rect.left + rect.width / 2) })

/-- `createGlowingMovingCircle(targetElement, color)`: if `circle` already
exists return; otherwise register animation styles, build the circle
element, append the icon to it, compute the initial position, append the
circle to `document.body`, and register the resize and scroll recompute
listeners, each a fresh closure capturing `targetElement`. -/
def createGlowingMovingCircle (env : Env) (targetElement : TargetId) (color : String)
    (s : St) : St :=
  match s.circle with
  | some _ => s
  | none =>
      let s := addGlowAnimationStyles s
      let r1 := createCircleElement color s
      let s := { r1.2 with circle := some r1.1 }
      let r2 := createIconElement s
      let s := (r2.2).setElem r1.1 (fun e => { e with children := e.children ++ [r2.1] })
      let s := updateCirclePosition env targetElement s
      let s := { s with body := s.body ++ [r1.1] }
      let r3 := s.freshClosure
      let s := { r3.2 with
        listeners := (r3.2).listeners ++ [Listener.mk EventKind.resize r3.1 targetElement] }
      let r4 := s.freshClosure
      { r4.2 with
        listeners := (r4.2).listeners ++ [Listener.mk EventKind.scroll r4.1 targetElement] }

/-- `showCircle(targetElement, color = "BLUE")`: create the circle if the
handle is null; otherwise set display to flex, update the background from
the color conditional, and recompute the position.  Call sites that omit
the color argument pass the TypeScript default `"BLUE"`. -/
def showCircle (env : Env) (targetElement : TargetId) (color : String) (s : St) : St :=
  match s.circle with
  | none => createGlowingMovingCircle env targetElement color s
  | some i =>
      let s := s.setElem i (fun e => { e with display := "flex" })
      let s := s.setElem i (fun e => { e with background := gradientFor color })
      updateCirclePosition env targetElement s

/-- `hideCircle()`: if the handle exists, set its display to none. -/
def hideCircle (s : St) : St :=
  match s.circle with
  | none => s
  | some i => s.setElem i (fun e => { e with display := "none" })

/-- `window.removeEventListener(ev, closure)`: removes a listener only when
both the event and the closure identity match. -/
def removeEventListener (ev : EventKind) (cid : Nat) (s : St) : St :=
  { s with listeners := s.listeners.filter (fun l => !(l.event == ev && l.closureId == cid)) }

/-- `destroyCircle()`: detach and null the circle if present, detach and
null the style sheet if present, then call `removeEventListener` for resize
and scroll with two newly constructed closures `() => \x7b\x7d`. -/
def destroyCircle (s : St) : St :=
  let s :=
    match s.circle with
    | none => s
    | some i => { s with body := s.body.filter (fun j => j != i), circle := none }
  let s :=
    match s.styleSheet with
    | none => s
    | some j => { s with head := s.head.filter (fun k => k != j), styleSheet := none }
  let r1 := s.freshClosure
  let s := removeEventListener EventKind.resize r1.1 r1.2
  let r2 := s.freshClosure
  removeEventListener EventKind.scroll r2.1 r2.2

/-- Dispatch a window event: each registered listener for `ev` runs its body
`() => updateCirclePosition(targetElement)` on the captured target, in
registration order. -/
def fireEvent (ev : EventKind) (env : Env) (s : St) : St :=
  (s.listeners.filter (fun l => l.event == ev)).foldl
    (fun st l => updateCirclePosition env l.target st) s

/-! ## Frame and characterization lemmas -/

@[simp] theorem setElem_circle (s : St) (i : Nat) (f : DivElem → DivElem) :
    (s.setElem i f).circle = s.circle := rfl

@[simp] theorem setElem_styleSheet (s : St) (i : Nat) (f : DivElem → DivElem) :
    (s.setElem i f).styleSheet = s.styleSheet := rfl

@[simp] theorem setElem_body (s : St) (i : Nat) (f : DivElem → DivElem) :
    (s.setElem i f).body = s.body := rfl

@[simp] theorem setElem_head (s : St) (i : Nat) (f : DivElem → DivElem) :
    (s.setElem i f).head = s.head := rfl

@[simp] theorem setElem_listeners (s : St) (i : Nat) (f : DivElem → DivElem) :
    (s.setElem i f).listeners = s.listeners := rfl

@[simp] theorem setElem_nextId (s : St) (i : Nat) (f : DivElem → DivElem) :
    (s.setElem i f).nextId = s.nextId := rfl

@[simp] theorem setElem_styleElems (s : St) (i : Nat) (f : DivElem → DivElem) :
    (s.setElem i f).styleElems = s.styleElems := rfl

@[simp] theorem setElem_elems_length (s : St) (i : Nat) (f : DivElem → DivElem) :
    (s.setElem i f).elems.length = s.elems.length := by
  simp [St.setElem]

theorem find_map_upd (l : List (Nat × DivElem)) (i : Nat) (f : DivElem → DivElem) :
    ((l.map (fun p => if p.1 == i then (p.1, f p.2) else p)).find?
        (fun p => p.1 == i)).map (fun p => p.2)
      = ((l.find? (fun p => p.1 == i)).map (fun p => p.2)).map f := by
  induction l with
  | nil => rfl
  | cons hd tl ih =>
      rcases hd with ⟨a, b⟩
      by_cases h : a = i
      · subst h
        rw [List.map_cons]
        simp only [beq_self_eq_true, if_true]
        rw [List.find?_cons_of_pos _ (by simp), List.find?_cons_of_pos _ (by simp)]
        simp
      · have hb : (a == i) = false := beq_eq_false_iff_ne.mpr h
        rw [List.map_cons]
        simp only [hb, Bool.false_eq_true, if_false]
        rw [List.find?_cons_of_neg _ (by simp [hb]), List.find?_cons_of_neg _ (by simp [hb])]
        exact ih

theorem elem_setElem_same (s : St) (i : Nat) (f : DivElem → DivElem) :
    (s.setElem i f).elem i = (s.elem i).map f := by
  unfold St.elem St.setElem
  exact find_map_upd s.elems i f

@[simp] theorem update_circle (env : Env) (t : TargetId) (s : St) :
    (updateCirclePosition env t s).circle = s.circle := by
  cases h : s.circle <;> simp [updateCirclePosition, h]

@[simp] theorem update_styleSheet (env : Env) (t : TargetId) (s : St) :
    (updateCirclePosition env t s).styleSheet = s.styleSheet := by
  cases h : s.circle <;> simp [updateCirclePosition, h]

@[simp] theorem update_body (env : Env) (t : TargetId) (s : St) :
    (updateCirclePosition env t s).body = s.body := by
  cases h : s.circle <;> simp [updateCirclePosition, h]

@[simp] theorem update_head (env : Env) (t : TargetId) (s : St) :
    (updateCirclePosition env t s).head = s.head := by
  cases h : s.circle <;> simp [updateCirclePosition, h]

@[simp] theorem update_listeners (env : Env) (t : TargetId) (s : St) :
    (updateCirclePosition env t s).listeners = s.listeners := by
  cases h : s.circle <;> simp [updateCirclePosition, h]

@[simp] theorem update_nextId (env : Env) (t : TargetId) (s : St) :
    (updateCirclePosition env t s).nextId = s.nextId := by
  cases h : s.circle <;> simp [updateCirclePosition, h]

@[simp] theorem update_styleElems (env : Env) (t : TargetId) (s : St) :
    (updateCirclePosition env t s).styleElems = s.styleElems := by
  cases h : s.circle <;> simp [updateCirclePosition, h]

@[simp] theorem update_elems_length (env : Env) (t : TargetId) (s : St) :
    (updateCirclePosition env t s).elems.length = s.elems.length := by
  cases h : s.circle <;> simp [updateCirclePosition, h]

/-- Under `updateCirclePosition`, the circle element receives the target's
center coordinates; all its other properties are untouched. -/
theorem update_elem_some (env : Env) (t : TargetId) (s : St) (i : Nat)
    (h : s.circle = some i) :
    (updateCirclePosition env t s).elem i
      = (s.elem i).map (fun e =>
          { e with top := some ((env t).top + (env t).height / 2)
                   left := some ((env t).left + (env t).width / 2) }) := by
  simp only [updateCirclePosition, h]
  rw [elem_setElem_same, elem_setElem_same, Option.map_map]
  rfl

/-- The existing-instance branch of `showCircle`: all state components other
than the element heap are untouched. -/
theorem showCircle_some_frame (env : Env) (t : TargetId) (c : String) (s : St) (i : Nat)
    (h : s.circle = some i) :
    (showCircle env t c s).circle = some i ∧
    (showCircle env t c s).styleSheet = s.styleSheet ∧
    (showCircle env t c s).body = s.body ∧
    (showCircle env t c s).head = s.head ∧
    (showCircle env t c s).listeners = s.listeners ∧
    (showCircle env t c s).nextId = s.nextId ∧
    (showCircle env t c s).styleElems = s.styleElems ∧
    (showCircle env t c s).elems.length = s.elems.length := by
  simp [showCircle, h]

/-- The existing-instance branch of `showCircle`, on the circle element:
display becomes flex, the background follows the color conditional, the
position is recomputed, and everything else — in particular the
boxShadow — keeps its previous value. -/
theorem showCircle_some_elem (env : Env) (t : TargetId) (c : String) (s : St) (i : Nat)
    (h : s.circle = some i) :
    (showCircle env t c s).elem i
      = (s.elem i).map (fun e =>
          { e with display := "flex"
                   background := gradientFor c
                   top := some ((env t).top + (env t).height / 2)
                   left := some ((env t).left + (env t).width / 2) }) := by
  simp only [showCircle, h]
  rw [update_elem_some _ _ _ i (by simp [h]), elem_setElem_same, elem_setElem_same,
    Option.map_map, Option.map_map]
  rfl

/-- `addGlowAnimationStyles` is the identity when the registration exists. -/
theorem addGlow_of_some (s : St) (j : Nat) (h : s.styleSheet = some j) :
    addGlowAnimationStyles s = s := by
  simp [addGlowAnimationStyles, h]

/-- `addGlowAnimationStyles` when the registration is absent: allocate the
style element, register the handle and append it to the head. -/
theorem addGlow_of_none (s : St) (h : s.styleSheet = none) :
    addGlowAnimationStyles s
      = { s with styleSheet := some s.nextId
                 styleElems := s.styleElems ++ [(s.nextId, glowStyleElem)]
                 head := s.head ++ [s.nextId]
                 nextId := s.nextId + 1 } := by
  simp [addGlowAnimationStyles, h, St.allocStyle]

/-- The fresh-creation path of `showCircle` (handle absent): field-level
characterization in terms of the post-`addGlowAnimationStyles` state. -/
theorem showCircle_none_frame (env : Env) (t : TargetId) (c : String) (s : St)
    (h : s.circle = none) :
    (showCircle env t c s).circle = some (addGlowAnimationStyles s).nextId ∧
    (showCircle env t c s).styleSheet = (addGlowAnimationStyles s).styleSheet ∧
    (showCircle env t c s).body = s.body ++ [(addGlowAnimationStyles s).nextId] ∧
    (showCircle env t c s).head = (addGlowAnimationStyles s).head ∧
    (showCircle env t c s).listeners
      = s.listeners
        ++ [Listener.mk EventKind.resize ((addGlowAnimationStyles s).nextId + 2) t,
            Listener.mk EventKind.scroll ((addGlowAnimationStyles s).nextId + 3) t] ∧
    (showCircle env t c s).nextId = (addGlowAnimationStyles s).nextId + 4 := by
  have hb : (addGlowAnimationStyles s).body = s.body := by
    cases hs : s.styleSheet with
    | none => rw [addGlow_of_none s hs]
    | some j => rw [addGlow_of_some s j hs]
  have hl : (addGlowAnimationStyles s).listeners = s.listeners := by
    cases hs : s.styleSheet with
    | none => rw [addGlow_of_none s hs]
    | some j => rw [addGlow_of_some s j hs]
  refine ⟨?_, ?_, ?_, ?_, ?_, ?_⟩ <;>
    simp [showCircle, createGlowingMovingCircle, h, createCircleElement,
      createIconElement, St.allocElem, St.freshClosure, hb, hl]

/-- Folding position recomputations over any list of listeners touches only
the element heap. -/
theorem foldl_update_frame (env : Env) (l : List Listener) (s : St) :
    ((l.foldl (fun st lr => updateCirclePosition env lr.target st) s).circle = s.circle) ∧
    ((l.foldl (fun st lr => updateCirclePosition env lr.target st) s).styleSheet
      = s.styleSheet) ∧
    ((l.foldl (fun st lr => updateCirclePosition env lr.target st) s).body = s.body) ∧
    ((l.foldl (fun st lr => updateCirclePosition env lr.target st) s).head = s.head) ∧
    ((l.foldl (fun st lr => updateCirclePosition env lr.target st) s).listeners
      = s.listeners) ∧
    ((l.foldl (fun st lr => updateCirclePosition env lr.target st) s).nextId = s.nextId) := by
  induction l generalizing s with
  | nil => exact ⟨rfl, rfl, rfl, rfl, rfl, rfl⟩
  | cons hd tl ih =>
      have h := ih (updateCirclePosition env hd.target s)
      simpa using h

/-- Event dispatch touches only the element heap. -/
theorem fireEvent_frame (ev : EventKind) (env : Env) (s : St) :
    (fireEvent ev env s).circle = s.circle ∧
    (fireEvent ev env s).styleSheet = s.styleSheet ∧
    (fireEvent ev env s).body = s.body ∧
    (fireEvent ev env s).head = s.head ∧
    (fireEvent ev env s).listeners = s.listeners ∧
    (fireEvent ev env s).nextId = s.nextId := by
  unfold fireEvent
  exact foldl_update_frame env (s.listeners.filter (fun l => l.event == ev)) s

/-- `hideCircle` with a handle touches only the element heap. -/
theorem hideCircle_frame (s : St) :
    (hideCircle s).circle = s.circle ∧
    (hideCircle s).styleSheet = s.styleSheet ∧
    (hideCircle s).body = s.body ∧
    (hideCircle s).head = s.head ∧
    (hideCircle s).listeners = s.listeners ∧
    (hideCircle s).nextId = s.nextId := by
  cases h : s.circle <;> simp [hideCircle, h]

/-- All closure identities registered in the listener list were allocated
before the current allocator value.  This holds in every reachable state
and is what makes the removal attempt in `destroyCircle` miss. -/
def ListenersWF (s : St) : Prop :=
  ∀ l ∈ s.listeners, l.closureId < s.nextId

/-- `destroyCircle` filters the listener list with two closure identities
that are freshly allocated, so a well-formed listener list passes through
unchanged. -/
theorem destroyCircle_listeners_eq (s : St) (h : ListenersWF s) :
    (destroyCircle s).listeners = s.listeners := by
  have hval : ∀ sc : St, sc.listeners = s.listeners → sc.nextId = s.nextId →
      (removeEventListener EventKind.scroll (sc.nextId + 1)
        (removeEventListener EventKind.resize sc.nextId sc)).listeners = s.listeners := by
    intro sc hls hni
    simp only [removeEventListener]
    rw [List.filter_filter]
    rw [List.filter_eq_self.mpr]
    · exact hls
    · intro l hl
      have hlt : l.closureId < s.nextId := h l (hls ▸ hl)
      simp only [Bool.and_eq_true, Bool.not_eq_true', Bool.and_eq_false_iff]
      constructor <;>
        · right
          simp only [beq_eq_false_iff_ne, ne_eq]
          omega
  unfold destroyCircle
  cases hc : s.circle <;> cases hs : s.styleSheet <;>
    simp only [St.freshClosure, hc, hs] <;> exact hval _ rfl rfl

/-- After `destroyCircle` both handles are null. -/
theorem destroyCircle_handles (s : St) :
    (destroyCircle s).circle = none ∧ (destroyCircle s).styleSheet = none := by
  cases hc : s.circle <;> cases hs : s.styleSheet <;>
    simp [destroyCircle, removeEventListener, St.freshClosure, hc, hs]

/-- `destroyCircle` leaves the element heaps untouched and allocates the two
removal closures. -/
theorem destroyCircle_frame (s : St) :
    (destroyCircle s).elems = s.elems ∧ (destroyCircle s).styleElems = s.styleElems ∧
    (destroyCircle s).nextId = s.nextId + 2 := by
  cases hc : s.circle <;> cases hs : s.styleSheet <;>
    simp [destroyCircle, removeEventListener, St.freshClosure, hc, hs]

/-- If the body held exactly the indicator (as in every reachable state),
`destroyCircle` empties it. -/
theorem destroyCircle_body (s : St) (h : s.body = s.circle.toList) :
    (destroyCircle s).body = [] := by
  cases hc : s.circle <;> cases hs : s.styleSheet <;>
    simp [destroyCircle, removeEventListener, St.freshClosure, hc, hs, h,
      List.filter_eq_nil_iff]

/-- If the head held exactly the style registration, `destroyCircle`
empties it. -/
theorem destroyCircle_head (s : St) (h : s.head = s.styleSheet.toList) :
    (destroyCircle s).head = [] := by
  cases hc : s.circle <;> cases hs : s.styleSheet <;>
    simp [destroyCircle, removeEventListener, St.freshClosure, hc, hs, h,
      List.filter_eq_nil_iff]

/-! ## Reachability and the singleton invariant -/

/-- One externally triggerable step: a public API call or a window event. -/
inductive Step : St → St → Prop
  | stepShow (env : Env) (t : TargetId) (c : String) (s : St) : Step s (showCircle env t c s)
  | stepHide (s : St) : Step s (hideCircle s)
  | stepDestroy (s : St) : Step s (destroyCircle s)
  | stepFire (ev : EventKind) (env : Env) (s : St) : Step s (fireEvent ev env s)

/-- States reachable from module load by any sequence of operations. -/
inductive Reachable : St → Prop
  | init : Reachable initSt
  | step (s s' : St) : Reachable s → Step s s' → Reachable s'

/-- The singleton invariant: the document body holds exactly the indicator
element referenced by the handle (none when null), the head holds exactly
the registered style element, and listener identities are in the past of
the allocator. -/
def StInv (s : St) : Prop :=
  s.body = s.circle.toList ∧ s.head = s.styleSheet.toList ∧ ListenersWF s

theorem inv_init : StInv initSt := by
  refine ⟨rfl, rfl, ?_⟩
  intro l hl
  simp [initSt] at hl

theorem inv_show (env : Env) (t : TargetId) (c : String) (s : St) (h : StInv s) :
    StInv (showCircle env t c s) := by
  obtain ⟨hb, hh, hw⟩ := h
  cases hc : s.circle with
  | some i =>
      obtain ⟨f1, f2, f3, f4, f5, f6, -, -⟩ := showCircle_some_frame env t c s i hc
      refine ⟨?_, ?_, ?_⟩
      · rw [f3, f1, hb, hc]
      · rw [f4, f2, hh]
      · intro l hl
        rw [f5] at hl
        rw [f6]
        exact hw l hl
  | none =>
      obtain ⟨f1, f2, f3, f4, f5, f6⟩ := showCircle_none_frame env t c s hc
      have hglow : (addGlowAnimationStyles s).styleSheet.toList = (addGlowAnimationStyles s).head ∧
          s.nextId ≤ (addGlowAnimationStyles s).nextId := by
        cases hs : s.styleSheet with
        | none =>
            rw [addGlow_of_none s hs]
            constructor
            · simp [hh, hs]
            · simp
        | some j =>
            rw [addGlow_of_some s j hs]
            exact ⟨by rw [hh], le_refl _⟩
      refine ⟨?_, ?_, ?_⟩
      · rw [f3, f1, hb, hc]
        rfl
      · rw [f4, f2, hglow.1]
      · intro l hl
        rw [f5] at hl
        rw [f6]
        rcases List.mem_append.mp hl with hold | hnew
        · have := hw l hold
          have := hglow.2
          omega
        · rcases List.mem_cons.mp hnew with he | he
          · subst he
            simp only []
            omega
          · rcases List.mem_cons.mp he with he2 | he2
            · subst he2
              simp only []
              omega
            · simp at he2

theorem inv_hide (s : St) (h : StInv s) : StInv (hideCircle s) := by
  obtain ⟨hb, hh, hw⟩ := h
  obtain ⟨f1, f2, f3, f4, f5, f6⟩ := hideCircle_frame s
  refine ⟨?_, ?_, ?_⟩
  · rw [f3, f1, hb]
  · rw [f4, f2, hh]
  · intro l hl
    rw [f5] at hl
    rw [f6]
    exact hw l hl

theorem inv_destroy (s : St) (h : StInv s) : StInv (destroyCircle s) := by
  obtain ⟨hb, hh, hw⟩ := h
  obtain ⟨d1, d2⟩ := destroyCircle_handles s
  obtain ⟨-, -, d5⟩ := destroyCircle_frame s
  refine ⟨?_, ?_, ?_⟩
  · rw [destroyCircle_body s hb, d1]
    rfl
  · rw [destroyCircle_head s hh, d2]
    rfl
  · intro l hl
    rw [destroyCircle_listeners_eq s hw] at hl
    rw [d5]
    have := hw l hl
    omega

theorem inv_fire (ev : EventKind) (env : Env) (s : St) (h : StInv s) :
    StInv (fireEvent ev env s) := by
  obtain ⟨hb, hh, hw⟩ := h
  obtain ⟨f1, f2, f3, f4, f5, f6⟩ := fireEvent_frame ev env s
  refine ⟨?_, ?_, ?_⟩
  · rw [f3, f1, hb]
  · rw [f4, f2, hh]
  · intro l hl
    rw [f5] at hl
    rw [f6]
    exact hw l hl

/-- Every reachable state satisfies the singleton invariant. -/
theorem reachable_inv (s : St) (h : Reachable s) : StInv s := by
  induction h with
  | init => exact inv_init
  | step s s' _ hstep ih =>
      cases hstep with
      | stepShow env t c s => exact inv_show env t c s ih
      | stepHide s => exact inv_hide s ih
      | stepDestroy s => exact inv_destroy s ih
      | stepFire ev env s => exact inv_fire ev env s ih

/-- After any `showCircle`, the handle exists. -/
theorem showCircle_isSome (env : Env) (t : TargetId) (c : String) (s : St) :
    (showCircle env t c s).circle.isSome := by
  cases hc : s.circle with
  | some i => rw [(showCircle_some_frame env t c s i hc).1]; rfl
  | none => rw [(showCircle_none_frame env t c s hc).1]; rfl

/-! ## Concrete fixtures for witnesses -/

/-- A degenerate geometry: every target has the zero rect. -/
def envA : Env := fun _ => Rect.mk 0 0 0 0

/-- A geometry where distinct targets have distinct bounds. -/
def envB : Env := fun t => Rect.mk ((t : Rat) + 1) 2 3 4

/-- The state after one `showCircle(0, "BLUE")` from module load: style id 0,
circle id 1, icon id 2, listener closures 3 and 4. -/
def stA : St := showCircle envA 0 "BLUE" initSt

/-- The circle element inside `stA`. -/
def stACircleElem : DivElem :=
  { circleElemFor "BLUE" with
      children := [2]
      top := some ((envA 0).top + (envA 0).height / 2)
      left := some ((envA 0).left + (envA 0).width / 2) }

theorem reachable_stA : Reachable stA :=
  Reachable.step initSt stA Reachable.init (Step.stepShow envA 0 "BLUE" initSt)

/-! ## Claims -/

/-- C1: at most one indicator element ever exists.  In every reachable state
the document body holds at most one indicator element; a `showCircle` call
made while a handle exists attaches no element, allocates nothing, and two
successive `showCircle` calls from any reachable state leave exactly one
indicator element in the document. -/
theorem showCircle_at_most_one_indicator (env1 env2 : Env) (t1 t2 : TargetId)
    (c1 c2 : String) (s : St) (h : Reachable s) :
    s.body.length ≤ 1 ∧
    (∀ i, s.circle = some i →
      (showCircle env1 t1 c1 s).body = s.body ∧
      (showCircle env1 t1 c1 s).elems.length = s.elems.length ∧
      (showCircle env1 t1 c1 s).nextId = s.nextId) ∧
    (showCircle env2 t2 c2 (showCircle env1 t1 c1 s)).body.length = 1 := by
  obtain ⟨hb, hh, hw⟩ := reachable_inv s h
  refine ⟨?_, ?_, ?_⟩
  · rw [hb]
    cases s.circle <;> simp
  · intro i hi
    obtain ⟨-, -, f3, -, -, f6, -, f8⟩ := showCircle_some_frame env1 t1 c1 s i hi
    exact ⟨f3, f8, f6⟩
  · have h1 : Reachable (showCircle env1 t1 c1 s) :=
      Reachable.step s _ h (Step.stepShow env1 t1 c1 s)
    obtain ⟨hb1, -, -⟩ := reachable_inv _ h1
    obtain ⟨x, hx⟩ := Option.isSome_iff_exists.mp (showCircle_isSome env1 t1 c1 s)
    obtain ⟨-, -, f3, -, -, -, -, -⟩ := showCircle_some_frame env2 t2 c2 _ x hx
    rw [f3, hb1, hx]
    rfl

/-- C1 witness: two successive shows from module load leave exactly one
indicator element in the document body. -/
theorem showCircle_at_most_one_indicator_witness :
    (showCircle envB 1 "PURPLE" (showCircle envA 0 "BLUE" initSt)).body.length = 1 :=
  (showCircle_at_most_one_indicator envA envB 0 1 "BLUE" "PURPLE" initSt Reachable.init).2.2

/-- C2: on the existing-instance path, `showCircle` updates the background
to the requested variant's gradient and recomputes top/left from the
target, but leaves the boxShadow at whatever value the element already
had. -/
theorem showCircle_existing_background_not_shadow (env : Env) (t : TargetId) (v : String)
    (s : St) (i : Nat) (e : DivElem) (hc : s.circle = some i) (he : s.elem i = some e) :
    ((showCircle env t v s).elem i).map (fun d => d.boxShadow) = some e.boxShadow ∧
    ((showCircle env t v s).elem i).map (fun d => d.background) = some (gradientFor v) ∧
    ((showCircle env t v s).elem i).map (fun d => d.top)
      = some (some ((env t).top + (env t).height / 2)) ∧
    ((showCircle env t v s).elem i).map (fun d => d.left)
      = some (some ((env t).left + (env t).width / 2)) := by
  rw [showCircle_some_elem env t v s i hc, he]
  exact ⟨rfl, rfl, rfl, rfl⟩

/-- C2 witness: re-showing in PURPLE over a BLUE circle keeps the BLUE
boxShadow. -/
theorem showCircle_existing_background_not_shadow_witness :
    stA.circle = some 1 ∧
    ((showCircle envB 5 "PURPLE" stA).elem 1).map (fun d => d.boxShadow)
      = some stACircleElem.boxShadow ∧
    ((showCircle envB 5 "PURPLE" stA).elem 1).map (fun d => d.background)
      = some (gradientFor "PURPLE") :=
  ⟨rfl,
    (showCircle_existing_background_not_shadow envB 5 "PURPLE" stA 1 stACircleElem rfl
      rfl).1,
    (showCircle_existing_background_not_shadow envB 5 "PURPLE" stA 1 stACircleElem rfl
      rfl).2.1⟩

/-- C3: in any reachable state — in particular any run in which
`showCircle` registered resize/scroll listeners — `destroyCircle` removes
with two newly constructed closure identities, so the registered listener
list passes through unchanged. -/
theorem destroyCircle_leaves_listeners (s : St) (h : Reachable s) :
    (destroyCircle s).listeners = s.listeners ∧
    (destroyCircle s).nextId = s.nextId + 2 :=
  ⟨destroyCircle_listeners_eq s (reachable_inv s h).2.2, (destroyCircle_frame s).2.2⟩

/-- C3 witness: the resize/scroll listeners registered by a show survive a
destroy. -/
theorem destroyCircle_leaves_listeners_witness :
    (destroyCircle stA).listeners = stA.listeners :=
  (destroyCircle_leaves_listeners stA reachable_stA).1

/-- C4: any color string other than PURPLE and GRAY (the omitted-argument
default "BLUE" included) falls through both conditionals to the blue
gradient, on the fresh-creation path and on the existing-instance path
alike. -/
theorem unknown_variant_falls_back_to_blue (env : Env) (t : TargetId) (v : String)
    (s : St) (i : Nat)
    (h1 : v ≠ "PURPLE") (h2 : v ≠ "GRAY") (hc : s.circle = some i) :
    gradientFor v = gradientFor "BLUE" ∧
    ((showCircle env t v initSt).elem 1).map (fun d => d.background)
      = some (gradientFor "BLUE") ∧
    ((showCircle env t v s).elem i).map (fun d => d.background)
      = ((showCircle env t "BLUE" s).elem i).map (fun d => d.background) := by
  have hg : gradientFor v = gradientFor "BLUE" := by
    simp only [gradientFor, if_neg h1, if_neg h2]
    rfl
  refine ⟨hg, ?_, ?_⟩
  · have hbase : ((showCircle env t v initSt).elem 1).map (fun d => d.background)
        = some (gradientFor v) := rfl
    rw [hbase, hg]
  · rw [showCircle_some_elem env t v s i hc, showCircle_some_elem env t "BLUE" s i hc]
    cases s.elem i with
    | none => rfl
    | some e => simp [hg]

/-- C4 witness: the unrecognized variant "unknown" yields the BLUE
gradient. -/
theorem unknown_variant_falls_back_to_blue_witness :
    gradientFor "unknown" = gradientFor "BLUE" ∧
    ((showCircle envA 3 "unknown" initSt).elem 1).map (fun d => d.background)
      = some (gradientFor "BLUE") :=
  ⟨(unknown_variant_falls_back_to_blue envA 3 "unknown" stA 1 (by decide) (by decide) rfl).1,
   (unknown_variant_falls_back_to_blue envA 3 "unknown" stA 1 (by decide) (by decide) rfl).2.1⟩

/-- C5: position recomputation reads the target's current bounding box and
places the indicator's top at `top + height / 2` and its left at
`left + width / 2` — with the fixed `translate(-50%, -50%)` this puts the
indicator's center on the target's geometric center. -/
theorem updateCirclePosition_centers_on_target (env : Env) (t : TargetId) (s : St)
    (i : Nat) (e : DivElem) (hc : s.circle = some i) (he : s.elem i = some e) :
    ((updateCirclePosition env t s).elem i).map (fun d => d.top)
      = some (some ((env t).top + (env t).height / 2)) ∧
    ((updateCirclePosition env t s).elem i).map (fun d => d.left)
      = some (some ((env t).left + (env t).width / 2)) := by
  rw [update_elem_some env t s i hc, he]
  exact ⟨rfl, rfl⟩

/-- C5 witness: recomputation against target 7 in geometry `envB` lands on
its bounding-box center. -/
theorem updateCirclePosition_centers_on_target_witness :
    ((updateCirclePosition envB 7 stA).elem 1).map (fun d => d.top)
      = some (some ((envB 7).top + (envB 7).height / 2)) ∧
    ((updateCirclePosition envB 7 stA).elem 1).map (fun d => d.left)
      = some (some ((envB 7).left + (envB 7).width / 2)) :=
  updateCirclePosition_centers_on_target envB 7 stA 1 stACircleElem rfl rfl

/-- C6: after `destroyCircle`, handle and style registration are both
absent and no indicator element or style declaration remains attached; a
subsequent `showCircle` runs full initialization, recreating circle and
style registration from scratch. -/
theorem destroyCircle_full_teardown (s : St) (h : Reachable s) (env : Env)
    (t : TargetId) (c : String) :
    (destroyCircle s).circle = none ∧
    (destroyCircle s).styleSheet = none ∧
    (destroyCircle s).body = [] ∧
    (destroyCircle s).head = [] ∧
    (showCircle env t c (destroyCircle s)).circle.isSome ∧
    (showCircle env t c (destroyCircle s)).styleSheet.isSome ∧
    (showCircle env t c (destroyCircle s)).body.length = 1 ∧
    (showCircle env t c (destroyCircle s)).head.length = 1 := by
  obtain ⟨hb, hh, -⟩ := reachable_inv s h
  obtain ⟨d1, d2⟩ := destroyCircle_handles s
  have db := destroyCircle_body s hb
  have dh := destroyCircle_head s hh
  obtain ⟨f1, f2, f3, f4, -, -⟩ := showCircle_none_frame env t c (destroyCircle s) d1
  have hglow := addGlow_of_none (destroyCircle s) d2
  refine ⟨d1, d2, db, dh, ?_, ?_, ?_, ?_⟩
  · rw [f1]
    rfl
  · rw [f2, hglow]
    rfl
  · rw [f3, db]
    rfl
  · rw [f4, hglow]
    simp [dh]

/-- C6 witness: destroy after a show empties the document; the next show
recreates exactly one circle and one style declaration. -/
theorem destroyCircle_full_teardown_witness :
    (destroyCircle stA).circle = none ∧
    (destroyCircle stA).head = [] ∧
    (showCircle envB 2 "GRAY" (destroyCircle stA)).body.length = 1 ∧
    (showCircle envB 2 "GRAY" (destroyCircle stA)).head.length = 1 :=
  ⟨(destroyCircle_full_teardown stA reachable_stA envB 2 "GRAY").1,
   (destroyCircle_full_teardown stA reachable_stA envB 2 "GRAY").2.2.2.1,
   (destroyCircle_full_teardown stA reachable_stA envB 2 "GRAY").2.2.2.2.2.2.1,
   (destroyCircle_full_teardown stA reachable_stA envB 2 "GRAY").2.2.2.2.2.2.2⟩

/-- C7: show, hide, show from module load: hide leaves the single element
attached but with display none; the second show flips it back to flex
without attaching or allocating anything. -/
theorem show_hide_show_single_visible (env1 env2 : Env) (t1 t2 : TargetId)
    (c1 c2 : String) :
    (showCircle env1 t1 c1 initSt).body.length = 1 ∧
    (hideCircle (showCircle env1 t1 c1 initSt)).body
      = (showCircle env1 t1 c1 initSt).body ∧
    ((hideCircle (showCircle env1 t1 c1 initSt)).elem 1).map (fun d => d.display)
      = some "none" ∧
    (showCircle env2 t2 c2 (hideCircle (showCircle env1 t1 c1 initSt))).body
      = (showCircle env1 t1 c1 initSt).body ∧
    ((showCircle env2 t2 c2 (hideCircle (showCircle env1 t1 c1 initSt))).elem 1).map
        (fun d => d.display)
      = some "flex" ∧
    (showCircle env2 t2 c2 (hideCircle (showCircle env1 t1 c1 initSt))).nextId
      = (showCircle env1 t1 c1 initSt).nextId :=
  ⟨rfl, rfl, rfl, rfl, rfl, rfl⟩

/-- C8: with no indicator handle (and hence no style registration),
`hideCircle` is the identity and `destroyCircle` leaves handles, document,
element heaps, and well-formed listener list unchanged; both are total
functions, so no error is signalled. -/
theorem hide_destroy_noop_without_handle (s : St)
    (hc : s.circle = none) (hs : s.styleSheet = none) (hw : ListenersWF s) :
    hideCircle s = s ∧
    (destroyCircle s).circle = none ∧
    (destroyCircle s).styleSheet = none ∧
    (destroyCircle s).body = s.body ∧
    (destroyCircle s).head = s.head ∧
    (destroyCircle s).elems = s.elems ∧
    (destroyCircle s).styleElems = s.styleElems ∧
    (destroyCircle s).listeners = s.listeners := by
  obtain ⟨e1, e2, -⟩ := destroyCircle_frame s
  refine ⟨?_, hc ▸ (destroyCircle_handles s).1, (destroyCircle_handles s).2, ?_, ?_,
    e1, e2, destroyCircle_listeners_eq s hw⟩
  · simp [hideCircle, hc]
  · simp [destroyCircle, removeEventListener, St.freshClosure, hc, hs]
  · simp [destroyCircle, removeEventListener, St.freshClosure, hc, hs]

/-- C8 witness: hide and destroy at module load, before any show. -/
theorem hide_destroy_noop_without_handle_witness :
    hideCircle initSt = initSt ∧
    (destroyCircle initSt).body = initSt.body ∧
    (destroyCircle initSt).listeners = initSt.listeners :=
  ⟨(hide_destroy_noop_without_handle initSt rfl rfl
      (fun l hl => absurd hl (List.not_mem_nil l))).1,
   (hide_destroy_noop_without_handle initSt rfl rfl
      (fun l hl => absurd hl (List.not_mem_nil l))).2.2.2.1,
   (hide_destroy_noop_without_handle initSt rfl rfl
      (fun l hl => absurd hl (List.not_mem_nil l))).2.2.2.2.2.2.2⟩

/-- C9: the animation style registration is created at most once while
present.  While the handle exists, `addGlowAnimationStyles` is the
identity; `showCircle`, `hideCircle` and event dispatch preserve the
registration and the head; only `destroyCircle` clears it; and when absent,
the registration step (re)creates it. -/
theorem style_registration_once (env : Env) (t : TargetId) (c : String)
    (ev : EventKind) (s s2 : St) (j : Nat)
    (h : s.styleSheet = some j) (h2 : s2.styleSheet = none) :
    addGlowAnimationStyles s = s ∧
    (showCircle env t c s).styleSheet = some j ∧
    (showCircle env t c s).head = s.head ∧
    (hideCircle s).styleSheet = some j ∧
    (hideCircle s).head = s.head ∧
    (fireEvent ev env s).styleSheet = some j ∧
    (fireEvent ev env s).head = s.head ∧
    (destroyCircle s).styleSheet = none ∧
    (addGlowAnimationStyles s2).styleSheet = some s2.nextId ∧
    (addGlowAnimationStyles s2).head = s2.head ++ [s2.nextId] := by
  have hshow : (showCircle env t c s).styleSheet = some j ∧
      (showCircle env t c s).head = s.head := by
    cases hcir : s.circle with
    | some i =>
        obtain ⟨-, f2, -, f4, -, -, -, -⟩ := showCircle_some_frame env t c s i hcir
        exact ⟨f2.trans h, f4⟩
    | none =>
        obtain ⟨-, f2, -, f4, -, -⟩ := showCircle_none_frame env t c s hcir
        rw [addGlow_of_some s j h] at f2 f4
        exact ⟨f2.trans h, f4⟩
  obtain ⟨g1, g2, -, g4, -, -⟩ := fireEvent_frame ev env s
  obtain ⟨k1, k2, -, k4, -, -⟩ := hideCircle_frame s
  exact ⟨addGlow_of_some s j h, hshow.1, hshow.2, k2.trans h, k4, g2.trans h, g4,
    (destroyCircle_handles s).2,
    by rw [addGlow_of_none s2 h2], by rw [addGlow_of_none s2 h2]⟩

/-- C9 witness: re-show over an existing registration leaves the single
style declaration in place; from the empty state the first registration
creates it. -/
theorem style_registration_once_witness :
    addGlowAnimationStyles stA = stA ∧
    (showCircle envB 4 "GRAY" stA).head = stA.head ∧
    (addGlowAnimationStyles initSt).head = initSt.head ++ [initSt.nextId] :=
  ⟨(style_registration_once envB 4 "GRAY" EventKind.resize stA initSt 0 rfl rfl).1,
   (style_registration_once envB 4 "GRAY" EventKind.resize stA initSt 0 rfl rfl).2.2.1,
   (style_registration_once envB 4 "GRAY" EventKind.resize stA initSt 0 rfl rfl).2.2.2.2.2.2.2.2.2⟩

set_option maxHeartbeats 2000000 in
/-- C10: the recompute closures registered at creation permanently capture
the creation-time target.  After a second show against a different target
repositions the element once against it, any later resize or scroll
dispatch repositions against the original creation-time target again. -/
theorem listeners_capture_creation_target (env1 env2 env3 env4 : Env)
    (t1 t2 : TargetId) (c1 c2 : String) :
    (showCircle env2 t2 c2 (showCircle env1 t1 c1 initSt)).listeners
      = [Listener.mk EventKind.resize 3 t1, Listener.mk EventKind.scroll 4 t1] ∧
    ((showCircle env2 t2 c2 (showCircle env1 t1 c1 initSt)).elem 1).map (fun d => d.top)
      = some (some ((env2 t2).top + (env2 t2).height / 2)) ∧
    ((fireEvent EventKind.resize env3
        (showCircle env2 t2 c2 (showCircle env1 t1 c1 initSt))).elem 1).map
        (fun d => d.top)
      = some (some ((env3 t1).top + (env3 t1).height / 2)) ∧
    ((fireEvent EventKind.scroll env4
        (showCircle env2 t2 c2 (showCircle env1 t1 c1 initSt))).elem 1).map
        (fun d => d.top)
      = some (some ((env4 t1).top + (env4 t1).height / 2)) :=
  ⟨rfl, rfl, rfl, rfl⟩
